import Mathlib

/-!
Shallow embedding of the flightwall-web flight pipeline (src/flights.py).

Conventions of the embedding:
* Python floats are modelled as exact rationals where only arithmetic and
  comparisons matter.  The trigonometric great-circle functions are modelled
  over the real numbers (definition `haversine` below), and the snapshot
  fetcher is parameterised by rational-valued stand-ins for them, since the
  claims about the fetcher do not depend on the numeric values they produce.
* Python `None` becomes `Option.none`; Python string truthiness (empty
  string is falsy) is modelled explicitly via `truthyStr`.
* The global mutable route cache becomes explicit state threaded through the
  enrichment pass; outbound HTTP traffic for route lookups is modelled by an
  oracle `String -> RouteResp`, and the list of issued outbound calls is
  recorded in the state so that claims about call counts can be stated.
* Fallible HTTP fetching of the live-position feed is modelled by an
  `Except Unit AdsbData` input: `.error` covers transport failure, non-2xx
  status and a payload that fails to parse, all of which the source catches
  in one `except` block.
-/

/-- A JSON scalar as it can appear in a raw upstream aircraft entry: a
string, a number (modelled as an exact rational), or some other value. -/
inductive JVal
  | jstr (s : String)
  | jnum (q : ℚ)
  | jother
deriving DecidableEq

/-- Python `int()` applied to a number: truncation toward zero. -/
def pyInt (q : ℚ) : Int :=
  if q < 0 then ⌈q⌉ else ⌊q⌋

/-- Python truthiness of an optional string: `None` and the empty string
are falsy, everything else is truthy. -/
def truthyStr : Option String → Bool
  | none => false
  | some s => !(s == "")

/-- Python `a or b or None` over two optional strings, as used for the
callsign of a raw entry: the first truthy value, else `None`. -/
def pyOr (a b : Option String) : Option String :=
  if truthyStr a then a else if truthyStr b then b else none

/-- Whitespace stripping on the character list of a string. -/
def trimChars (cs : List Char) : List Char :=
  ((cs.dropWhile Char.isWhitespace).reverse.dropWhile Char.isWhitespace).reverse

/-- Python `s.strip()` (ASCII-whitespace approximation, exact on the ASCII
data the feeds carry). -/
def pyStrip (s : String) : String :=
  String.mk (trimChars s.data)

/-- Python `s.upper()` (ASCII approximation). -/
def pyUpper (s : String) : String :=
  String.mk (s.data.map Char.toUpper)

/-- Python `s.lower()` (ASCII approximation). -/
def pyLower (s : String) : String :=
  String.mk (s.data.map Char.toLower)

/-- The static operator-code table AIRLINE_PREFIXES from src/flights.py. -/
def AIRLINE_PREFIXES : List (String × String) :=
  [("DAL", "Delta"), ("AAL", "American"), ("UAL", "United"),
   ("SWA", "Southwest"), ("JBU", "JetBlue"), ("NKS", "Spirit"),
   ("FFT", "Frontier"), ("ASA", "Alaska"), ("RPA", "Republic"),
   ("SKW", "SkyWest"), ("ENY", "Envoy"), ("GJS", "GoJet"),
   ("EJA", "NetJets"), ("EJM", "Executive Jet Management"),
   ("UPS", "UPS"), ("FDX", "FedEx"), ("JIA", "PSA"),
   ("PDT", "Piedmont"), ("CPZ", "Compass"), ("N", "GA Aircraft"),
   ("EDV", "Endeavor"), ("CJT", "CargoJet")]

/-- Python `s.strip().upper()`, the normalization applied to identifiers. -/
def pyKey (s : String) : String :=
  pyUpper (pyStrip s)

/-- The US N-number test of `get_airline_from_callsign`:
`cs.startswith("N") and len(cs) >= 2 and cs[1].isalnum()`. -/
def isNNumber : List Char → Bool
  | 'N' :: c :: _ => c.isAlphanum
  | _ => false

/-- The leading alphabetic run of at most three characters extracted by the
loop in `get_airline_from_callsign`. -/
def leadingAlpha (cs : List Char) : List Char :=
  (cs.takeWhile Char.isAlpha).take 3

/-- Embedding of `get_airline_from_callsign` (src/flights.py lines 100-129). -/
def get_airline_from_callsign (callsign : String) : Option String :=
  if callsign = "" then none
  else
    let cs := pyKey callsign
    if isNNumber cs.data then AIRLINE_PREFIXES.lookup "N"
    else
      let pfx := leadingAlpha cs.data
      if pfx = [] then none
      else AIRLINE_PREFIXES.lookup (String.mk pfx)

/-- A raw upstream aircraft entry, with the fields the fetcher reads.
Latitude and longitude are numeric when present, per the provider
interface; every other field may hold an arbitrary JSON scalar. -/
structure RawAc where
  flight : Option String := none
  callsign : Option String := none
  lat : Option ℚ := none
  lon : Option ℚ := none
  alt_baro : Option JVal := none
  gs : Option JVal := none
  baro_rate : Option JVal := none
  t : Option JVal := none
  type : Option JVal := none
  icao_type : Option JVal := none
  mdl : Option JVal := none
deriving DecidableEq

/-- Embedding of `get_aircraft_type` (src/flights.py lines 137-145): try the
keys t, type, icao_type, mdl in order; return the first stripped string
value that is non-empty and is not the sentinel "adsb_icao". -/
def tryTypeKeys : List (Option JVal) → Option String
  | [] => none
  | v :: rest =>
    match v with
    | some (.jstr s) =>
      let s := pyStrip s
      if s ≠ "" ∧ pyLower s ≠ "adsb_icao" then some s else tryTypeKeys rest
    | _ => tryTypeKeys rest

def get_aircraft_type (ac : RawAc) : Option String :=
  tryTypeKeys [ac.t, ac.type, ac.icao_type, ac.mdl]

/-- Python `int(v) if isinstance(v, (int, float)) else None`. -/
def jNumInt : Option JVal → Option Int
  | some (.jnum q) => some (pyInt q)
  | _ => none

/-- Python `float(v) if isinstance(v, (int, float)) else None`. -/
def jNumQ : Option JVal → Option ℚ
  | some (.jnum q) => some q
  | _ => none

/-- The flight record (pydantic model Flight in src/flights.py).  The
timestamp is modelled as an integer token; distance and bearing are the
rational stand-ins described in the header comment. -/
structure Flight where
  callsign : String
  airline : Option String := none
  origin : Option String := none
  destination : Option String := none
  aircraft_type : Option String := none
  altitude_ft : Option Int := none
  distance_km : Option ℚ := none
  bearing_deg : Option ℚ := none
  gs : Option ℚ := none
  baro_rate : Option Int := none
  updated_at : Int
deriving DecidableEq

/-- Embedding of the per-entry loop body of `get_flights` (src/flights.py
lines 314-348): skip entries with a falsy coalesced callsign, skip entries
missing latitude or longitude, otherwise build the record.  `havF` and
`brgF` abstract the haversine and bearing computations. -/
def buildFlight (havF brgF : ℚ → ℚ → ℚ → ℚ → ℚ) (cLat cLon : ℚ) (now : Int)
    (ac : RawAc) : Option Flight :=
  match pyOr ac.flight ac.callsign with
  | none => none
  | some cs =>
    match ac.lat, ac.lon with
    | some lat, some lon =>
      some { callsign := pyStrip cs
             airline := get_airline_from_callsign cs
             origin := none
             destination := none
             aircraft_type := get_aircraft_type ac
             altitude_ft := jNumInt ac.alt_baro
             distance_km := some (havF cLat cLon lat lon)
             bearing_deg := some (brgF cLat cLon lat lon)
             gs := jNumQ ac.gs
             baro_rate := jNumInt ac.baro_rate
             updated_at := now }
    | _, _ => none

/-- Embedding of the radius resolution of `get_flights` (src/flights.py
lines 274-292): an override is used as given, otherwise the configured
kilometer radius is converted at 1 NM = 1.852 km; the result is clamped
into the interval from 10 to 250. -/
def resolveRadiusNm (radius_nm : Option ℚ) (radius_km : ℚ) : ℚ :=
  let r : ℚ :=
    match radius_nm with
    | some v => v
    | none => radius_km / 1.852
  let r1 := if r < 10 then 10 else r
  if r1 > 250 then 250 else r1

/-- The Python sort key of `get_flights` (src/flights.py lines 350-356):
distance with a sentinel of 1e9 for a missing distance, paired with the
negated altitude where a missing altitude counts as 0. -/
def sortKey (f : Flight) : ℚ × Int :=
  (f.distance_km.getD ((10 : ℚ) ^ 9), -(f.altitude_ft.getD 0))

/-- Lexicographic comparison of sort keys, as Python compares tuples. -/
def keyLE (f g : Flight) : Prop :=
  (sortKey f).1 < (sortKey g).1 ∨
    ((sortKey f).1 = (sortKey g).1 ∧ (sortKey f).2 ≤ (sortKey g).2)

instance : DecidableRel keyLE := fun f g => by
  unfold keyLE; infer_instance

instance : IsTotal Flight keyLE where
  total f g := by
    unfold keyLE
    rcases lt_trichotomy (sortKey f).1 (sortKey g).1 with h | h | h
    · exact Or.inl (Or.inl h)
    · rcases le_total (sortKey f).2 (sortKey g).2 with h2 | h2
      · exact Or.inl (Or.inr ⟨h, h2⟩)
      · exact Or.inr (Or.inr ⟨h.symm, h2⟩)
    · exact Or.inr (Or.inl h)

instance : IsTrans Flight keyLE where
  trans f g k hfg hgk := by
    unfold keyLE at *
    rcases hfg with h1 | ⟨h1, h1b⟩ <;> rcases hgk with h2 | ⟨h2, h2b⟩
    · exact Or.inl (h1.trans h2)
    · exact Or.inl (h2 ▸ h1)
    · exact Or.inl (h1 ▸ h2)
    · exact Or.inr ⟨h1.trans h2, h1b.trans h2b⟩

/-- The sort step of `get_flights`: a stable sort on `sortKey`, matching the
Python `list.sort(key=...)` call. -/
def sortFlights (l : List Flight) : List Flight :=
  List.insertionSort keyLE l

/-- The process-lifetime route cache (src/flights.py line 171), modelled as
an association list; insertion conses a binding, which has the same lookup
semantics as dict assignment. -/
def RouteCache := List (String × (Option String × Option String))

/-- An airport object inside a route-lookup response, with the three keys
the `pick` helper inspects. -/
structure ApiAirport where
  icao_code : Option String := none
  iata_code : Option String := none
  name : Option String := none
deriving DecidableEq

/-- The key loop of the `pick` helper (src/flights.py lines 219-226): the
first value that is a string with non-blank strip, stripped. -/
def pickFields : List (Option String) → Option String
  | [] => none
  | some s :: rest =>
    if pyStrip s ≠ "" then some (pyStrip s) else pickFields rest
  | none :: rest => pickFields rest

/-- Embedding of `pick`: a missing object (the `or` defaults in the source)
yields `None`. -/
def pickApt : Option ApiAirport → Option String
  | none => none
  | some a => pickFields [a.icao_code, a.iata_code, a.name]

/-- Outcome of one outbound route lookup: a 404, a 2xx payload carrying
optional origin and destination airport objects, or any other failure
(timeout, non-2xx server error, malformed payload) which the source
catches as an exception. -/
inductive RouteResp
  | notFound
  | ok (origin destination : Option ApiAirport)
  | err
deriving DecidableEq

/-- The state threaded through one enrichment invocation: the shared route
cache, the per-cycle count of completed new lookups, and the list of
outbound route-lookup calls issued so far (instrumentation recording what
the source sends over the network, in order). -/
structure EnrichSt where
  cache : List (String × (Option String × Option String))
  newCount : Nat
  calls : List String
deriving DecidableEq

/-- Embedding of one iteration of the loop in `enrich_routes_adsbdb`
(src/flights.py lines 183-238), processing one flight record. -/
def enrichStep (oracle : String → RouteResp) (maxNew : Nat) (st : EnrichSt)
    (f : Flight) : Flight × EnrichSt :=
  if truthyStr f.origin || truthyStr f.destination then (f, st)
  else
    let cs := pyKey f.callsign
    if cs = "" then (f, st)
    else
      match st.cache.lookup cs with
      | some p => ({ f with origin := p.1, destination := p.2 }, st)
      | none =>
        if maxNew ≤ st.newCount then (f, st)
        else
          let st1 : EnrichSt := { st with calls := st.calls ++ [cs] }
          match oracle cs with
          | .notFound =>
            (f, { st1 with cache := (cs, (none, none)) :: st1.cache,
                           newCount := st1.newCount + 1 })
          | .ok o d =>
            let origin := pickApt o
            let dest := pickApt d
            ({ f with origin := origin, destination := dest },
             { st1 with cache := (cs, (origin, dest)) :: st1.cache,
                        newCount := st1.newCount + 1 })
          | .err => (f, st1)

/-- The loop of `enrich_routes_adsbdb` over the whole record list, returning
the updated records in order together with the final state. -/
def enrichGo (oracle : String → RouteResp) (maxNew : Nat) :
    EnrichSt → List Flight → List Flight × EnrichSt
  | st, [] => ([], st)
  | st, f :: fs =>
    let r := enrichStep oracle maxNew st f
    let rest := enrichGo oracle maxNew r.2 fs
    (r.1 :: rest.1, rest.2)

/-- Embedding of `enrich_routes_adsbdb` (src/flights.py lines 174-238): a
disabled feature flag makes the pass a no-op. -/
def enrich_routes_adsbdb (oracle : String → RouteResp) (enabled : Bool)
    (maxNew : Nat) (st : EnrichSt) (fl : List Flight) :
    List Flight × EnrichSt :=
  if enabled then enrichGo oracle maxNew st fl else (fl, st)

/-- The parsed live-position payload: the aircraft array under the key ac,
absent when the key is missing (the source defaults it to an empty list). -/
structure AdsbData where
  ac : Option (List RawAc) := none

/-- Embedding of `get_flights` (src/flights.py lines 246-360) downstream of
the HTTP fetch: on a failed fetch return the empty list, otherwise build a
record per admissible raw entry, sort, then run route enrichment.  The
returned state exposes the final cache and the outbound route-lookup calls
issued. -/
def get_flights (havF brgF : ℚ → ℚ → ℚ → ℚ → ℚ) (oracle : String → RouteResp)
    (enabled : Bool) (maxNew : Nat) (cache : RouteCache) (now : Int)
    (cLat cLon : ℚ) (fetch : Except Unit AdsbData) : List Flight × EnrichSt :=
  match fetch with
  | .error _ => ([], ⟨cache, 0, []⟩)
  | .ok data =>
    let fl := (data.ac.getD []).filterMap (buildFlight havF brgF cLat cLon now)
    enrich_routes_adsbdb oracle enabled maxNew ⟨cache, 0, []⟩ (sortFlights fl)

/-- Python `math.radians`: degrees to radians. -/
noncomputable def radiansR (x : ℝ) : ℝ :=
  x * (Real.pi / 180)

/-- Python `math.atan2` over the reals: the quadrant-aware arctangent. -/
noncomputable def atan2R (y x : ℝ) : ℝ :=
  if 0 < x then Real.arctan (y / x)
  else if x < 0 then
    (if 0 ≤ y then Real.arctan (y / x) + Real.pi
     else Real.arctan (y / x) - Real.pi)
  else
    (if 0 < y then Real.pi / 2 else if y < 0 then -(Real.pi / 2) else 0)

/-- Embedding of `haversine` (src/flights.py lines 45-55) over the real
numbers, term for term. -/
noncomputable def haversine (lat1 lon1 lat2 lon2 : ℝ) : ℝ :=
  let R : ℝ := 6371.0
  let dlat := radiansR (lat2 - lat1)
  let dlon := radiansR (lon2 - lon1)
  let a := Real.sin (dlat / 2) ^ 2 +
    Real.cos (radiansR lat1) * Real.cos (radiansR lat2) * Real.sin (dlon / 2) ^ 2
  let c := 2 * atan2R (Real.sqrt a) (Real.sqrt (1 - a))
  R * c

/-- Claim C3: for every invocation of the flight snapshot fetcher, if the
primary live-position fetch fails (transport failure, non-2xx response, or
malformed payload, all of which the source catches in one except block and
which the embedding surfaces as the error case of the fetch outcome), the
fetcher returns an empty flight list to the caller rather than an error;
moreover it issues no route lookups and leaves the cache as it was. -/
theorem get_flights_fetch_failure (havF brgF : ℚ → ℚ → ℚ → ℚ → ℚ)
    (oracle : String → RouteResp) (enabled : Bool) (maxNew : Nat)
    (cache : RouteCache) (now : Int) (cLat cLon : ℚ) :
    get_flights havF brgF oracle enabled maxNew cache now cLat cLon
      (Except.error ()) = ([], ⟨cache, 0, []⟩) := rfl

/-- Claim C8: the resolved search radius always lies in the interval from
10 to 250 nautical miles; an override of 5 clamps to 10, 999 clamps to
250, 100 passes through unchanged, and a missing override is derived from
the configured kilometer radius by dividing by 1.852 before clamping. -/
theorem resolveRadiusNm_spec :
    (∀ o k, 10 ≤ resolveRadiusNm o k ∧ resolveRadiusNm o k ≤ 250) ∧
    (∀ k, resolveRadiusNm (some 5) k = 10) ∧
    (∀ k, resolveRadiusNm (some 999) k = 250) ∧
    (∀ k, resolveRadiusNm (some 100) k = 100) ∧
    (∀ k, resolveRadiusNm none k =
      (if k / 1.852 < 10 then 10
       else if k / 1.852 > 250 then 250 else k / 1.852)) := by
  refine ⟨?_, ?_, ?_, ?_, ?_⟩
  · intro o k
    cases o with
    | none =>
      simp only [resolveRadiusNm]
      split_ifs <;> constructor <;> linarith
    | some v =>
      simp only [resolveRadiusNm]
      split_ifs <;> constructor <;> linarith
  · intro k; norm_num [resolveRadiusNm]
  · intro k; norm_num [resolveRadiusNm]
  · intro k; norm_num [resolveRadiusNm]
  · intro k
    simp only [resolveRadiusNm]
    split_ifs <;> first | rfl | linarith

/-- Claim C9: the great-circle distance function is symmetric in its two
points, and the distance from a point to itself is zero. -/
theorem haversine_symm_self :
    (∀ lat1 lon1 lat2 lon2 : ℝ,
      haversine lat1 lon1 lat2 lon2 = haversine lat2 lon2 lat1 lon1) ∧
    (∀ lat lon : ℝ, haversine lat lon lat lon = 0) := by
  constructor
  · intro lat1 lon1 lat2 lon2
    have hd : ∀ x : ℝ,
        Real.sin (radiansR (-x) / 2) ^ 2 = Real.sin (radiansR x / 2) ^ 2 := by
      intro x
      have h : radiansR (-x) = -radiansR x := by unfold radiansR; ring
      rw [h, neg_div, Real.sin_neg]
      ring
    simp only [haversine]
    have h1 : lat1 - lat2 = -(lat2 - lat1) := by ring
    have h2 : lon1 - lon2 = -(lon2 - lon1) := by ring
    rw [h1, h2, hd, hd, mul_comm (Real.cos (radiansR lat2))]
  · intro lat lon
    simp only [haversine, sub_self]
    have h0 : radiansR 0 = 0 := by unfold radiansR; ring
    rw [h0]
    norm_num [atan2R, Real.arctan_zero]

/-- The frame relation of one enrichment pass: the output record keeps every
field of the input record except possibly origin and destination, and a
record with a truthy origin or destination is untouched entirely. -/
def frameRel (f g : Flight) : Prop :=
  g.callsign = f.callsign ∧ g.airline = f.airline ∧
  g.aircraft_type = f.aircraft_type ∧ g.altitude_ft = f.altitude_ft ∧
  g.distance_km = f.distance_km ∧ g.bearing_deg = f.bearing_deg ∧
  g.gs = f.gs ∧ g.baro_rate = f.baro_rate ∧ g.updated_at = f.updated_at ∧
  ((truthyStr f.origin || truthyStr f.destination) = true → g = f)

lemma frameRel_refl (f : Flight) : frameRel f f :=
  ⟨rfl, rfl, rfl, rfl, rfl, rfl, rfl, rfl, rfl, fun _ => rfl⟩

lemma enrichStep_skip_truthy (oracle : String → RouteResp) (maxNew : Nat)
    (st : EnrichSt) (f : Flight)
    (h : (truthyStr f.origin || truthyStr f.destination) = true) :
    enrichStep oracle maxNew st f = (f, st) := by
  unfold enrichStep
  rw [if_pos h]


lemma enrichStep_skip_blank (oracle : String → RouteResp) (maxNew : Nat)
    (st : EnrichSt) (f : Flight)
    (h1 : ¬(truthyStr f.origin || truthyStr f.destination) = true)
    (h2 : pyKey f.callsign = "") :
    enrichStep oracle maxNew st f = (f, st) := by
  unfold enrichStep
  rw [if_neg h1, if_pos h2]

lemma enrichStep_cached (oracle : String → RouteResp) (maxNew : Nat)
    (st : EnrichSt) (f : Flight) (p : Option String × Option String)
    (h1 : ¬(truthyStr f.origin || truthyStr f.destination) = true)
    (h2 : ¬pyKey f.callsign = "")
    (h3 : st.cache.lookup (pyKey f.callsign) = some p) :
    enrichStep oracle maxNew st f =
      ({ f with origin := p.1, destination := p.2 }, st) := by
  unfold enrichStep
  rw [if_neg h1, if_neg h2, h3]

lemma enrichStep_budget (oracle : String → RouteResp) (maxNew : Nat)
    (st : EnrichSt) (f : Flight)
    (h1 : ¬(truthyStr f.origin || truthyStr f.destination) = true)
    (h2 : ¬pyKey f.callsign = "")
    (h3 : st.cache.lookup (pyKey f.callsign) = none)
    (h4 : maxNew ≤ st.newCount) :
    enrichStep oracle maxNew st f = (f, st) := by
  unfold enrichStep
  rw [if_neg h1, if_neg h2, h3]
  exact if_pos h4

lemma enrichStep_notFound (oracle : String → RouteResp) (maxNew : Nat)
    (st : EnrichSt) (f : Flight)
    (h1 : ¬(truthyStr f.origin || truthyStr f.destination) = true)
    (h2 : ¬pyKey f.callsign = "")
    (h3 : st.cache.lookup (pyKey f.callsign) = none)
    (h4 : ¬maxNew ≤ st.newCount)
    (h5 : oracle (pyKey f.callsign) = .notFound) :
    enrichStep oracle maxNew st f =
      (f, { cache := (pyKey f.callsign, (none, none)) :: st.cache,
            newCount := st.newCount + 1,
            calls := st.calls ++ [pyKey f.callsign] }) := by
  unfold enrichStep
  rw [if_neg h1, if_neg h2, h3]
  rw [if_neg h4, h5]

lemma enrichStep_ok (oracle : String → RouteResp) (maxNew : Nat)
    (st : EnrichSt) (f : Flight) (o d : Option ApiAirport)
    (h1 : ¬(truthyStr f.origin || truthyStr f.destination) = true)
    (h2 : ¬pyKey f.callsign = "")
    (h3 : st.cache.lookup (pyKey f.callsign) = none)
    (h4 : ¬maxNew ≤ st.newCount)
    (h5 : oracle (pyKey f.callsign) = .ok o d) :
    enrichStep oracle maxNew st f =
      ({ f with origin := pickApt o, destination := pickApt d },
       { cache := (pyKey f.callsign, (pickApt o, pickApt d)) :: st.cache,
         newCount := st.newCount + 1,
         calls := st.calls ++ [pyKey f.callsign] }) := by
  unfold enrichStep
  rw [if_neg h1, if_neg h2, h3]
  rw [if_neg h4, h5]

lemma enrichStep_err (oracle : String → RouteResp) (maxNew : Nat)
    (st : EnrichSt) (f : Flight)
    (h1 : ¬(truthyStr f.origin || truthyStr f.destination) = true)
    (h2 : ¬pyKey f.callsign = "")
    (h3 : st.cache.lookup (pyKey f.callsign) = none)
    (h4 : ¬maxNew ≤ st.newCount)
    (h5 : oracle (pyKey f.callsign) = .err) :
    enrichStep oracle maxNew st f =
      (f, { st with calls := st.calls ++ [pyKey f.callsign] }) := by
  unfold enrichStep
  rw [if_neg h1, if_neg h2, h3]
  rw [if_neg h4, h5]

lemma lookup_cons_ne {k cs : String} {q : Option String × Option String}
    {l : List (String × (Option String × Option String))} (h : k ≠ cs) :
    ((cs, q) :: l).lookup k = l.lookup k := by
  rw [List.lookup_cons]
  have hb : (k == cs) = false := beq_eq_false_iff_ne.mpr h
  rw [hb]

lemma enrichStep_cases (oracle : String → RouteResp) (maxNew : Nat)
    (st : EnrichSt) (f : Flight) :
    (enrichStep oracle maxNew st f).1 = f ∨
    ∃ o d, (enrichStep oracle maxNew st f).1 =
      { f with origin := o, destination := d } := by
  by_cases h1 : (truthyStr f.origin || truthyStr f.destination) = true
  · rw [enrichStep_skip_truthy oracle maxNew st f h1]
    exact Or.inl rfl
  by_cases h2 : pyKey f.callsign = ""
  · rw [enrichStep_skip_blank oracle maxNew st f h1 h2]
    exact Or.inl rfl
  cases h3 : st.cache.lookup (pyKey f.callsign) with
  | some p =>
    rw [enrichStep_cached oracle maxNew st f p h1 h2 h3]
    exact Or.inr ⟨p.1, p.2, rfl⟩
  | none =>
    by_cases h4 : maxNew ≤ st.newCount
    · rw [enrichStep_budget oracle maxNew st f h1 h2 h3 h4]
      exact Or.inl rfl
    cases h5 : oracle (pyKey f.callsign) with
    | notFound =>
      rw [enrichStep_notFound oracle maxNew st f h1 h2 h3 h4 h5]
      exact Or.inl rfl
    | ok o d =>
      rw [enrichStep_ok oracle maxNew st f o d h1 h2 h3 h4 h5]
      exact Or.inr ⟨_, _, rfl⟩
    | err =>
      rw [enrichStep_err oracle maxNew st f h1 h2 h3 h4 h5]
      exact Or.inl rfl

lemma enrichStep_frame (oracle : String → RouteResp) (maxNew : Nat)
    (st : EnrichSt) (f : Flight) :
    frameRel f (enrichStep oracle maxNew st f).1 := by
  have himp : (truthyStr f.origin || truthyStr f.destination) = true →
      (enrichStep oracle maxNew st f).1 = f := fun h => by
    rw [enrichStep_skip_truthy oracle maxNew st f h]
  rcases enrichStep_cases oracle maxNew st f with h | ⟨o, d, h⟩ <;>
    rw [h] at himp ⊢ <;>
    exact ⟨rfl, rfl, rfl, rfl, rfl, rfl, rfl, rfl, rfl, himp⟩

lemma enrichGo_frame (oracle : String → RouteResp) (maxNew : Nat) :
    ∀ (st : EnrichSt) (fl : List Flight),
      List.Forall₂ frameRel fl (enrichGo oracle maxNew st fl).1
  | _, [] => List.Forall₂.nil
  | st, f :: fs =>
    List.Forall₂.cons (enrichStep_frame oracle maxNew st f)
      (enrichGo_frame oracle maxNew (enrichStep oracle maxNew st f).2 fs)

lemma enrich_frame (oracle : String → RouteResp) (enabled : Bool)
    (maxNew : Nat) (st : EnrichSt) (fl : List Flight) :
    List.Forall₂ frameRel fl
      (enrich_routes_adsbdb oracle enabled maxNew st fl).1 := by
  unfold enrich_routes_adsbdb
  split
  · exact enrichGo_frame oracle maxNew st fl
  · exact List.forall₂_same.mpr fun f _ => frameRel_refl f

lemma sortKey_of_frame {f g : Flight} (h : frameRel f g) :
    sortKey g = sortKey f := by
  obtain ⟨-, -, -, halt, hdist, -⟩ := h
  unfold sortKey
  rw [halt, hdist]

lemma keyLE_congr {a a' b b' : Flight} (ha : sortKey a' = sortKey a)
    (hb : sortKey b' = sortKey b) (h : keyLE a b) : keyLE a' b' := by
  unfold keyLE at *
  rw [ha, hb]
  exact h

lemma forall₂_key_mem :
    ∀ {l l' : List Flight},
      List.Forall₂ (fun f g => sortKey g = sortKey f) l l' →
      ∀ b' ∈ l', ∃ b ∈ l, sortKey b' = sortKey b := by
  intro l l' h
  induction h with
  | nil => intro b' hb'; cases hb'
  | cons hfg _ ih =>
    intro b' hb'
    rcases List.mem_cons.mp hb' with rfl | hb'
    · exact ⟨_, List.mem_cons_self _ _, hfg⟩
    · obtain ⟨b, hb, hk⟩ := ih b' hb'
      exact ⟨b, List.mem_cons_of_mem _ hb, hk⟩

lemma sorted_of_forall₂_key :
    ∀ {l l' : List Flight},
      List.Forall₂ (fun f g => sortKey g = sortKey f) l l' →
      l.Sorted keyLE → l'.Sorted keyLE := by
  intro l l' h hs
  induction h with
  | nil => exact List.sorted_nil
  | cons hfg hrest ih =>
    rw [List.sorted_cons] at hs ⊢
    refine ⟨?_, ih hs.2⟩
    intro b' hb'
    obtain ⟨b, hb, hk⟩ := forall₂_key_mem hrest b' hb'
    exact keyLE_congr hfg hk (hs.1 b hb)

/-- Example records for the sorting property: distances 50, 10, 10 km and
altitudes 1000, 2000, 5000 ft. -/
def exA4 : Flight :=
  { callsign := "A", altitude_ft := some 1000, distance_km := some 50,
    updated_at := 0 }

def exB4 : Flight :=
  { callsign := "B", altitude_ft := some 2000, distance_km := some 10,
    updated_at := 0 }

def exC4 : Flight :=
  { callsign := "C", altitude_ft := some 5000, distance_km := some 10,
    updated_at := 0 }

/-- Claim C4: the list returned by the fetcher is sorted ascending by
distance, a missing distance taking the sentinel 1e9 (so it orders as a
very large value, effectively last) and ties on distance broken by
altitude descending with a missing altitude treated as 0; in particular
records with distances 50, 10, 10 km and altitudes 1000, 2000, 5000 ft
sort to the order 10/5000, 10/2000, 50/1000. -/
theorem get_flights_sorted :
    (∀ havF brgF oracle enabled maxNew cache now cLat cLon fetch,
      (get_flights havF brgF oracle enabled maxNew cache now cLat cLon
        fetch).1.Sorted keyLE) ∧
    sortFlights [exA4, exB4, exC4] = [exC4, exB4, exA4] := by
  constructor
  · intro havF brgF oracle enabled maxNew cache now cLat cLon fetch
    cases fetch with
    | error e => exact List.sorted_nil
    | ok data =>
      have hsorted : (sortFlights ((data.ac.getD []).filterMap
          (buildFlight havF brgF cLat cLon now))).Sorted keyLE :=
        List.sorted_insertionSort keyLE _
      have hfr := enrich_frame oracle enabled maxNew ⟨cache, 0, []⟩
        (sortFlights ((data.ac.getD []).filterMap
          (buildFlight havF brgF cLat cLon now)))
      exact sorted_of_forall₂_key
        (hfr.imp fun _ _ hfg => sortKey_of_frame hfg) hsorted
  · decide

/-- The record of the counterexample to claim C10 as originally stated: its
origin is present (hence not absent) but is the empty string, which Python
truthiness treats as missing. -/
def f10 : Flight :=
  { callsign := "ABC1", origin := some "", updated_at := 0 }

def st10 : EnrichSt :=
  ⟨[("ABC1", (some "KJFK", some "KLAX"))], 0, []⟩

/-- Counterexample to claim C10 as stated: a record whose origin is present
(the empty string, so not absent) and whose destination is absent is
nevertheless mutated by the enrichment pass, because the source tests
Python truthiness rather than absence. -/
theorem enrich_mutates_nonabsent_record :
    f10.origin ≠ none ∧
    ¬(f10.origin = none ∧ f10.destination = none) ∧
    (enrich_routes_adsbdb (fun _ => .err) true 2 st10 [f10]).1.map
      Flight.origin = [some "KJFK"] := by decide

/-- Claim C10 (amended): route enrichment never changes the length or the
order of the list, every field of every record other than origin and
destination is unchanged, and a record whose origin or destination is
initially truthy (a non-empty string) is unchanged entirely.  Amendment
relative to the original claim: the records that may be mutated are those
whose origin and destination are both falsy (absent or the empty string),
not only those where both are absent, because the source tests Python
truthiness. -/
theorem enrich_frame_spec :
    ∀ oracle enabled maxNew st fl,
      (enrich_routes_adsbdb oracle enabled maxNew st fl).1.length =
        fl.length ∧
      List.Forall₂ frameRel fl
        (enrich_routes_adsbdb oracle enabled maxNew st fl).1 := by
  intro oracle enabled maxNew st fl
  have h := enrich_frame oracle enabled maxNew st fl
  exact ⟨h.length_eq.symm, h⟩

/-- Claim C7: an identifier whose trimmed uppercased form starts with the
letter N followed by an alphanumeric character maps to the fixed
general-aviation category, taking precedence over the prefix table;
otherwise the classifier returns the table entry for the leading
alphabetic run of up to three characters (absent for an unmatched prefix,
and in particular for empty or blank input, whose run is empty); DAL2968
maps to Delta, N447MM to the general-aviation category, and XYZ123 to
absent. -/
theorem get_airline_spec :
    (∀ s : String, isNNumber (pyKey s).data = true →
      get_airline_from_callsign s = some "GA Aircraft") ∧
    (∀ s : String, isNNumber (pyKey s).data = false →
      get_airline_from_callsign s =
        AIRLINE_PREFIXES.lookup (String.mk (leadingAlpha (pyKey s).data))) ∧
    get_airline_from_callsign "DAL2968" = some "Delta" ∧
    get_airline_from_callsign "N447MM" = some "GA Aircraft" ∧
    get_airline_from_callsign "XYZ123" = none := by
  refine ⟨?_, ?_, by decide, by decide, by decide⟩
  · intro s h
    have hs : ¬s = "" := by
      intro he
      rw [he] at h
      exact absurd h (by decide)
    unfold get_airline_from_callsign
    rw [if_neg hs, if_pos h]
    decide
  · intro s h
    by_cases hs : s = ""
    · subst hs
      decide
    · unfold get_airline_from_callsign
      rw [if_neg hs, if_neg (by rw [h]; exact Bool.false_ne_true)]
      by_cases hp : leadingAlpha (pyKey s).data = []
      · rw [if_pos hp, hp]
        decide
      · rw [if_neg hp]

/-- Concrete instantiation of the two conditional clauses of the classifier
theorem. -/
theorem get_airline_spec_witness :
    get_airline_from_callsign "N12" = some "GA Aircraft" ∧
    get_airline_from_callsign "QQQ1" =
      AIRLINE_PREFIXES.lookup (String.mk (leadingAlpha (pyKey "QQQ1").data)) :=
  ⟨get_airline_spec.1 "N12" (by decide),
   get_airline_spec.2.1 "QQQ1" (by decide)⟩

lemma enrichStep_saturated (oracle : String → RouteResp) (maxNew : Nat)
    (st : EnrichSt) (f : Flight) (h : maxNew ≤ st.newCount) :
    (enrichStep oracle maxNew st f).2 = st := by
  by_cases h1 : (truthyStr f.origin || truthyStr f.destination) = true
  · rw [enrichStep_skip_truthy oracle maxNew st f h1]
  · by_cases h2 : pyKey f.callsign = ""
    · rw [enrichStep_skip_blank oracle maxNew st f h1 h2]
    · cases h3 : st.cache.lookup (pyKey f.callsign) with
      | some p => rw [enrichStep_cached oracle maxNew st f p h1 h2 h3]
      | none => rw [enrichStep_budget oracle maxNew st f h1 h2 h3 h]

lemma enrichGo_saturated (oracle : String → RouteResp) (maxNew : Nat) :
    ∀ (st : EnrichSt) (fl : List Flight), maxNew ≤ st.newCount →
      (enrichGo oracle maxNew st fl).2 = st
  | _, [], _ => rfl
  | st, f :: fs, h => by
    show (enrichGo oracle maxNew (enrichStep oracle maxNew st f).2 fs).2 = st
    rw [enrichStep_saturated oracle maxNew st f h]
    exact enrichGo_saturated oracle maxNew st fs h

/-- Five candidate records with distinct uncached identifiers, all lacking
origin and destination. -/
def mkCand (cs : String) : Flight :=
  { callsign := cs, updated_at := 0 }

def flights5 : List Flight :=
  [mkCand "AAA1", mkCand "BBB1", mkCand "CCC1", mkCand "DDD1", mkCand "EEE1"]

def st0 : EnrichSt := ⟨[], 0, []⟩

/-- Counterexample to claim C1 as stated: an invocation with a per-cycle
budget of 2 and five uncached records needing lookup in which every
outbound lookup fails (timeout, malformed payload, or server error)
issues five outbound route-lookup calls, not exactly two, because a
failed lookup does not increment the per-cycle count gating the budget. -/
theorem enrich_budget_counterexample :
    (enrich_routes_adsbdb (fun _ => .err) true 2 st0 flights5).2.calls =
      ["AAA1", "BBB1", "CCC1", "DDD1", "EEE1"] ∧
    ¬(enrich_routes_adsbdb (fun _ => .err) true 2 st0 flights5).2.calls.length
      = 2 := by decide

/-- An oracle whose every lookup completes successfully with a route. -/
def okOracle1 : String → RouteResp := fun _ =>
  .ok (some { icao_code := some "KDTW" }) (some { icao_code := some "KATL" })

/-- Claim C1 (amended): once the per-cycle count of completed new lookups
has reached the budget, the remainder of the invocation issues no further
outbound route-lookup call (the enrichment state, including the call list,
is unchanged); and in the concrete scenario with budget 2 and five
uncached records with distinct identifiers needing lookup whose issued
lookups complete, exactly two outbound calls occur and the remaining three
records stay unresolved.  Amendment relative to the original claim: the
exact-two-calls count requires the issued lookups to complete (2xx or
not-found); a lookup that fails with a timeout, malformed payload or
server error does not consume budget, so such an invocation can issue
more than two calls. -/
theorem enrich_budget_spec :
    (∀ (oracle : String → RouteResp) (maxNew : Nat) (st : EnrichSt)
      (fl : List Flight), maxNew ≤ st.newCount →
      (enrichGo oracle maxNew st fl).2 = st) ∧
    (enrich_routes_adsbdb okOracle1 true 2 st0 flights5).2.calls.length = 2 ∧
    (enrich_routes_adsbdb okOracle1 true 2 st0 flights5).1.drop 2 =
      flights5.drop 2 ∧
    ∀ f ∈ (enrich_routes_adsbdb okOracle1 true 2 st0 flights5).1.drop 2,
      f.origin = none ∧ f.destination = none := by
  refine ⟨enrichGo_saturated, by decide, by decide, by decide⟩

/-- Concrete instantiation of the budget-saturation clause: a state whose
per-cycle count already equals the budget issues no further calls. -/
theorem enrich_budget_spec_witness :
    (enrichGo (fun _ => .notFound) 2 ⟨[], 2, []⟩ flights5).2 = ⟨[], 2, []⟩ :=
  enrich_budget_spec.1 (fun _ => .notFound) 2 ⟨[], 2, []⟩ flights5
    (by decide)

lemma enrichStep_inv (oracle : String → RouteResp) (maxNew : Nat)
    (st : EnrichSt) (f : Flight) (k : String)
    (p : Option String × Option String)
    (hk : st.cache.lookup k = some p) :
    (enrichStep oracle maxNew st f).2.cache.lookup k = some p ∧
    ∀ c ∈ (enrichStep oracle maxNew st f).2.calls, c ∈ st.calls ∨ c ≠ k := by
  by_cases h1 : (truthyStr f.origin || truthyStr f.destination) = true
  · rw [enrichStep_skip_truthy oracle maxNew st f h1]
    exact ⟨hk, fun c hc => Or.inl hc⟩
  by_cases h2 : pyKey f.callsign = ""
  · rw [enrichStep_skip_blank oracle maxNew st f h1 h2]
    exact ⟨hk, fun c hc => Or.inl hc⟩
  cases h3 : st.cache.lookup (pyKey f.callsign) with
  | some q =>
    rw [enrichStep_cached oracle maxNew st f q h1 h2 h3]
    exact ⟨hk, fun c hc => Or.inl hc⟩
  | none =>
    have hne : k ≠ pyKey f.callsign := by
      intro he
      rw [← he, hk] at h3
      exact Option.noConfusion h3
    by_cases h4 : maxNew ≤ st.newCount
    · rw [enrichStep_budget oracle maxNew st f h1 h2 h3 h4]
      exact ⟨hk, fun c hc => Or.inl hc⟩
    have hcalls : ∀ c ∈ st.calls ++ [pyKey f.callsign],
        c ∈ st.calls ∨ c ≠ k := by
      intro c hc
      rcases List.mem_append.mp hc with hc | hc
      · exact Or.inl hc
      · rw [List.mem_singleton.mp hc]
        exact Or.inr (Ne.symm hne)
    cases h5 : oracle (pyKey f.callsign) with
    | notFound =>
      rw [enrichStep_notFound oracle maxNew st f h1 h2 h3 h4 h5]
      exact ⟨(lookup_cons_ne hne).trans hk, hcalls⟩
    | ok o d =>
      rw [enrichStep_ok oracle maxNew st f o d h1 h2 h3 h4 h5]
      exact ⟨(lookup_cons_ne hne).trans hk, hcalls⟩
    | err =>
      rw [enrichStep_err oracle maxNew st f h1 h2 h3 h4 h5]
      exact ⟨hk, hcalls⟩

lemma enrichGo_inv (oracle : String → RouteResp) (maxNew : Nat)
    (k : String) (p : Option String × Option String) :
    ∀ (st : EnrichSt) (fl : List Flight), st.cache.lookup k = some p →
      (enrichGo oracle maxNew st fl).2.cache.lookup k = some p ∧
      ∀ c ∈ (enrichGo oracle maxNew st fl).2.calls, c ∈ st.calls ∨ c ≠ k
  | _, [], hk => ⟨hk, fun c hc => Or.inl hc⟩
  | st, f :: fs, hk => by
    obtain ⟨hk1, hc1⟩ := enrichStep_inv oracle maxNew st f k p hk
    obtain ⟨hk2, hc2⟩ :=
      enrichGo_inv oracle maxNew k p (enrichStep oracle maxNew st f).2 fs hk1
    refine ⟨hk2, ?_⟩
    intro c hc
    rcases hc2 c hc with hcm | hne
    · exact hc1 c hcm
    · exact Or.inr hne

/-- Two records carrying the same identifier. -/
def flightsC2 : List Flight := [mkCand "ABC1", mkCand "ABC1"]

/-- Counterexample to claim C2 as stated: when the first lookup of an
identifier fails (timeout, malformed payload or server error) nothing is
cached, so a second record with the same identifier in the same process
lifetime triggers a second outbound route-lookup call. -/
theorem enrich_cache_counterexample :
    (enrich_routes_adsbdb (fun _ => .err) true 2 st0 flightsC2).2.calls =
      ["ABC1", "ABC1"] ∧
    ¬(enrich_routes_adsbdb (fun _ => .err) true 2 st0
        flightsC2).2.calls.length ≤ 1 := by decide

/-- Claim C2 (amended): once an entry (including the permanent
(absent, absent) not-found marker) is stored in the cache under the
uppercase-trimmed identifier, it stays there through any later enrichment
run, no later outbound call is ever issued for that identifier, processing
a record with that identifier leaves the enrichment state (budget count,
cache, call list) unchanged, and when such a record still lacks origin and
destination the cached pair is copied onto it.  Amendment relative to the
original claim: at most one outbound call per identifier holds only once a
lookup has completed and been cached; a lookup that fails caches nothing,
so the identifier can be queried again by a later record or invocation. -/
theorem enrich_cache_idempotent :
    ∀ (oracle : String → RouteResp) (maxNew : Nat) (st : EnrichSt)
      (k : String) (p : Option String × Option String),
      st.cache.lookup k = some p →
      (∀ fl, (enrichGo oracle maxNew st fl).2.cache.lookup k = some p ∧
        ∀ c ∈ (enrichGo oracle maxNew st fl).2.calls,
          c ∈ st.calls ∨ c ≠ k) ∧
      (∀ f : Flight, pyKey f.callsign = k → ¬k = "" →
        (enrichStep oracle maxNew st f).2 = st ∧
        ((truthyStr f.origin || truthyStr f.destination) = false →
          (enrichStep oracle maxNew st f).1 =
            { f with origin := p.1, destination := p.2 })) := by
  intro oracle maxNew st k p hk
  constructor
  · intro fl
    exact enrichGo_inv oracle maxNew k p st fl hk
  · intro f hf hk0
    have h2 : ¬pyKey f.callsign = "" := by rw [hf]; exact hk0
    by_cases h1 : (truthyStr f.origin || truthyStr f.destination) = true
    · rw [enrichStep_skip_truthy oracle maxNew st f h1]
      refine ⟨rfl, ?_⟩
      intro hfalse
      rw [h1] at hfalse
      exact absurd hfalse (by decide)
    · have h3 : st.cache.lookup (pyKey f.callsign) = some p := by
        rw [hf]; exact hk
      rw [enrichStep_cached oracle maxNew st f p h1 h2 h3]
      exact ⟨rfl, fun _ => rfl⟩

def stC2 : EnrichSt := ⟨[("DAL1", (some "KJFK", some "KLAX"))], 0, []⟩

/-- Concrete instantiation of the cache idempotence theorem: an identifier
cached as DAL1 is served from cache, with no state change and the cached
pair copied onto the record. -/
theorem enrich_cache_idempotent_witness :
    (enrichGo (fun _ => .err) 2 stC2 [mkCand "dal1 "]).2.cache.lookup "DAL1"
        = some (some "KJFK", some "KLAX") ∧
    (enrichStep (fun _ => .err) 2 stC2 (mkCand "dal1 ")).2 = stC2 ∧
    (enrichStep (fun _ => .err) 2 stC2 (mkCand "dal1 ")).1 =
      { mkCand "dal1 " with origin := some "KJFK",
                            destination := some "KLAX" } := by
  have h := enrich_cache_idempotent (fun _ => .err) 2 stC2 "DAL1"
    (some "KJFK", some "KLAX") (by decide)
  exact ⟨(h.1 [mkCand "dal1 "]).1,
         (h.2 (mkCand "dal1 ") (by decide) (by decide)).1,
         (h.2 (mkCand "dal1 ") (by decide) (by decide)).2 (by decide)⟩

/-- Claim C5: a route lookup that fails with anything other than a
successful or a not-found response leaves that record unchanged (hence
unresolved), consumes no unit of the per-cycle budget, writes no cache
entry for the identifier, records exactly the one issued call, and the
remaining records of the batch are still processed. -/
theorem enrich_err_nonfatal :
    ∀ (oracle : String → RouteResp) (maxNew : Nat) (st : EnrichSt)
      (f : Flight) (rest : List Flight),
      (truthyStr f.origin || truthyStr f.destination) = false →
      ¬pyKey f.callsign = "" →
      st.cache.lookup (pyKey f.callsign) = none →
      st.newCount < maxNew →
      oracle (pyKey f.callsign) = .err →
      enrichStep oracle maxNew st f =
        (f, { st with calls := st.calls ++ [pyKey f.callsign] }) ∧
      enrichGo oracle maxNew st (f :: rest) =
        (f :: (enrichGo oracle maxNew
            { st with calls := st.calls ++ [pyKey f.callsign] } rest).1,
         (enrichGo oracle maxNew
            { st with calls := st.calls ++ [pyKey f.callsign] } rest).2) := by
  intro oracle maxNew st f rest hf hcs hcache hlt herr
  have h1 : ¬(truthyStr f.origin || truthyStr f.destination) = true := by
    rw [hf]; exact Bool.false_ne_true
  have h4 : ¬maxNew ≤ st.newCount := not_le.mpr hlt
  have hstep := enrichStep_err oracle maxNew st f h1 hcs hcache h4 herr
  refine ⟨hstep, ?_⟩
  simp only [enrichGo]
  rw [hstep]

/-- Concrete instantiation of the failed-lookup theorem: a single failing
lookup leaves the record and the budget alone, adds no cache entry, and
the batch continues with the next record. -/
theorem enrich_err_nonfatal_witness :
    enrichStep (fun _ => .err) 2 st0 (mkCand "ZZZ1") =
      (mkCand "ZZZ1",
       { st0 with calls := st0.calls ++ [pyKey (mkCand "ZZZ1").callsign] }) ∧
    enrichGo (fun _ => .err) 2 st0 (mkCand "ZZZ1" :: [mkCand "YYY1"]) =
      (mkCand "ZZZ1" :: (enrichGo (fun _ => .err) 2
          { st0 with calls := st0.calls ++ [pyKey (mkCand "ZZZ1").callsign] }
          [mkCand "YYY1"]).1,
       (enrichGo (fun _ => .err) 2
          { st0 with calls := st0.calls ++ [pyKey (mkCand "ZZZ1").callsign] }
          [mkCand "YYY1"]).2) :=
  enrich_err_nonfatal (fun _ => .err) 2 st0 (mkCand "ZZZ1") [mkCand "YYY1"]
    (by decide) (by decide) (by decide) (by decide) (by decide)

lemma pyOr_eq_none_iff (a b : Option String) :
    pyOr a b = none ↔ (truthyStr a || truthyStr b) = false := by
  unfold pyOr
  by_cases h1 : truthyStr a = true
  · rw [if_pos h1]
    constructor
    · intro ha
      rw [ha] at h1
      exact absurd h1 (by decide)
    · intro hf
      rw [h1, Bool.true_or] at hf
      exact absurd hf (by decide)
  · have h1f : truthyStr a = false := by
      revert h1; cases truthyStr a <;> simp
    rw [if_neg h1]
    by_cases h2 : truthyStr b = true
    · rw [if_pos h2]
      constructor
      · intro hb
        rw [hb] at h2
        exact absurd h2 (by decide)
      · intro hf
        rw [h1f, h2] at hf
        exact absurd hf (by decide)
    · have h2f : truthyStr b = false := by
        revert h2; cases truthyStr b <;> simp
      rw [if_neg h2]
      simp [h1f, h2f]

/-- Claim C6 (amended): a raw entry yields an emitted record exactly when
its coalesced flight/callsign field is truthy (present and non-empty, the
flight key being consulted first) and both latitude and longitude are
present; on an emitted record every other missing upstream field degrades
to absent rather than causing rejection.  Amendment relative to the
original claim: the identifier test is Python truthiness, so a
whitespace-only (blank but non-empty) identifier is emitted rather than
dropped. -/
theorem buildFlight_emission :
    (∀ havF brgF cLat cLon now ac,
      (buildFlight havF brgF cLat cLon now ac).isSome = true ↔
        ((truthyStr ac.flight || truthyStr ac.callsign) = true ∧
         ac.lat.isSome = true ∧ ac.lon.isSome = true)) ∧
    (∀ havF brgF cLat cLon now ac f,
      buildFlight havF brgF cLat cLon now ac = some f →
      (ac.alt_baro = none → f.altitude_ft = none) ∧
      (ac.gs = none → f.gs = none) ∧
      (ac.baro_rate = none → f.baro_rate = none) ∧
      (ac.t = none ∧ ac.type = none ∧ ac.icao_type = none ∧ ac.mdl = none →
        f.aircraft_type = none)) := by
  constructor
  · intro havF brgF cLat cLon now ac
    unfold buildFlight
    cases hpo : pyOr ac.flight ac.callsign with
    | none =>
      have hfalse : (truthyStr ac.flight || truthyStr ac.callsign) = false :=
        (pyOr_eq_none_iff ac.flight ac.callsign).mp hpo
      simp [hfalse]
    | some cs =>
      have htr : (truthyStr ac.flight || truthyStr ac.callsign) = true := by
        cases htb : (truthyStr ac.flight || truthyStr ac.callsign)
        · rw [(pyOr_eq_none_iff ac.flight ac.callsign).mpr htb] at hpo
          exact Option.noConfusion hpo
        · rfl
      cases hlat : ac.lat with
      | none =>
        cases hlon : ac.lon with
        | none => simp [htr]
        | some lon => simp [htr]
      | some lat =>
        cases hlon : ac.lon with
        | none => simp [htr]
        | some lon => simp [htr]
  · intro havF brgF cLat cLon now ac f hbuild
    unfold buildFlight at hbuild
    cases hpo : pyOr ac.flight ac.callsign with
    | none =>
      rw [hpo] at hbuild
      exact absurd hbuild (by simp)
    | some cs =>
      rw [hpo] at hbuild
      cases hlat : ac.lat with
      | none =>
        rw [hlat] at hbuild
        simp at hbuild
      | some lat =>
        rw [hlat] at hbuild
        cases hlon : ac.lon with
        | none =>
          rw [hlon] at hbuild
          simp at hbuild
        | some lon =>
          rw [hlon] at hbuild
          injection hbuild with hf
          refine ⟨?_, ?_, ?_, ?_⟩
          · intro h
            rw [← hf, h]
            rfl
          · intro h
            rw [← hf, h]
            rfl
          · intro h
            rw [← hf, h]
            rfl
          · intro h
            obtain ⟨h1, h2, h3, h4⟩ := h
            rw [← hf]
            show get_aircraft_type ac = none
            unfold get_aircraft_type
            rw [h1, h2, h3, h4]
            rfl

/-- The raw entry of the counterexample to claim C6 as stated: its
identifier is whitespace-only, hence blank but truthy. -/
def acBlank : RawAc := { flight := some " ", lat := some 1, lon := some 2 }

/-- Counterexample to claim C6 as stated: a raw entry whose only identifier
is a whitespace-only (blank) string is emitted rather than dropped,
because the source tests Python truthiness, not blankness; the emitted
record carries the empty stripped callsign. -/
theorem buildFlight_blank_emitted :
    pyStrip " " = "" ∧
    (buildFlight (fun _ _ _ _ => 0) (fun _ _ _ _ => 0) 0 0 0 acBlank).map
      Flight.callsign = some "" := by decide

/-- Concrete instantiation of the emission theorem: an entry with a truthy
identifier and both coordinates is emitted, and its missing optional
fields degrade to absent. -/
theorem buildFlight_emission_witness :
    ((buildFlight (fun _ _ _ _ => 0) (fun _ _ _ _ => 0) 0 0 0
        { flight := some "DAL2968", lat := some 1, lon := some 2 }).isSome
      = true ↔
      ((truthyStr (some "DAL2968") || truthyStr none) = true ∧
       (some (1 : ℚ)).isSome = true ∧ (some (2 : ℚ)).isSome = true)) ∧
    ∀ f, buildFlight (fun _ _ _ _ => 0) (fun _ _ _ _ => 0) 0 0 0
        { flight := some "DAL2968", lat := some 1, lon := some 2 } = some f →
      f.altitude_ft = none ∧ f.gs = none ∧ f.baro_rate = none ∧
      f.aircraft_type = none := by
  refine ⟨buildFlight_emission.1 (fun _ _ _ _ => 0) (fun _ _ _ _ => 0) 0 0 0
    { flight := some "DAL2968", lat := some 1, lon := some 2 }, ?_⟩
  intro f hf
  have h := buildFlight_emission.2 (fun _ _ _ _ => 0) (fun _ _ _ _ => 0)
    0 0 0 { flight := some "DAL2968", lat := some 1, lon := some 2 } f hf
  exact ⟨h.1 rfl, h.2.1 rfl, h.2.2.1 rfl, h.2.2.2 ⟨rfl, rfl, rfl, rfl⟩⟩
